import Mathlib

/-!
Verification of the EnterobaseAssemblyDownloader pipeline
(`ClassEnterobaseAssemblyDownloader.py`, driven by `downloadAssemblies.py`).

The Python class is embedded shallowly: the mutable instance fields that
`download_assemblies` reads and writes become an explicit state record
(`DLState`), the remote Enterobase service becomes an oracle (`Env`) mapping
request URLs to responses, and the three possible fates of a block of Python
code — normal return, `sys.exit(c)`, or an uncaught exception — become the
three constructors of `Step`.  Every definition mirrors a specific region of
the source file, cited by line number.
-/

namespace Enterobase

/-- The seven database names accepted by the downloader (`__valid_db`, line 35). -/
def valid_db : List String :=
  ["senterica", "ecoli", "clostridium", "vibrio", "yersinia", "helicobacter", "mcatarrhalis"]

/-- The login server configured in `__init__` (`self.__server`, line 31): https scheme. -/
def server : String := "https://enterobase.warwick.ac.uk"

/-- The assembly-search URL built at the top of the fetch loop (line 110).  Note the
hardcoded plain-http scheme, which differs from the https `server` used for login. -/
def search_url (db barcode : String) : String :=
  "http://enterobase.warwick.ac.uk/api/v2.0/" ++ db ++ "/assemblies?barcode=" ++ barcode
    ++ "&limit=50"

/-- One (name, barcode) entry of the registry built by `import_barcodes`. -/
structure Entry where
  name : String
  barcode : String
  deriving DecidableEq, Repr

/-- Outcome of one `urllib.request.urlopen` call.  `httpError` models
`urllib.error.HTTPError` (an HTTP response with an error status, carrying code, msg and
body); `transportError` models any other `urllib.error.URLError` (no HTTP response was
received at all, e.g. DNS failure or refused connection); `ok` is a response object with
its status code and body.  For the resolve phase the body is modelled already parsed: the
list of `download_fasta_link` values of `data["Assemblies"]`. -/
inductive RemoteResp (α : Type) where
  | ok (code : Nat) (body : α)
  | httpError (code : Nat) (msg : String) (body : String)
  | transportError (msg : String)
  deriving DecidableEq, Repr

/-- Python exceptions relevant to the fetch loop that `except urllib.error.HTTPError`
does not catch: `urlError` is a non-HTTPError `URLError`; `indexError` is raised by
`data["Assemblies"][0]` on an empty list (line 115); `valueError` is raised by the tuple
unpacking in `import_barcodes` (line 99) when a line does not split into two fields. -/
inductive PyExc where
  | urlError (msg : String)
  | indexError
  | valueError
  deriving DecidableEq, Repr

/-- An outgoing request as built by `__create_request` (lines 152-154): the URL and the
token carried in the `Authorization: Basic base64("<token>:")` header. -/
structure Request where
  url : String
  auth : Option String
  deriving DecidableEq, Repr

/-- The remote service as seen by one run: the login response, and the responses to the
resolve and download requests, keyed by request URL. -/
structure Env where
  loginResp : RemoteResp String
  resolveResp : String → RemoteResp (List String)
  downloadResp : String → RemoteResp String

/-- The mutable downloader fields touched by the fetch pipeline: `__api_token`, the files
written to the output directory (filename, content), and the two error-record lists
`__barcode_error_log` and `__fasta_error_log`.  `loginContacts` counts calls made to the
login endpoint and `requests` logs every resolve/download `urlopen` issued, so that
"no network activity" and "no download request" are observable in the model. -/
structure DLState where
  token : Option String
  loginContacts : Nat
  requests : List Request
  files : List (String × String)
  barcode_error_log : List (List String)
  fasta_error_log : List (List String)
  deriving DecidableEq, Repr

/-- The state of a freshly constructed downloader (`__init__`, lines 36-38). -/
def st0 : DLState := ⟨none, 0, [], [], [], []⟩

/-- Result of running a block of the Python code: normal completion, `sys.exit code`, or
an uncaught exception. -/
inductive Step (α : Type) where
  | ok (st : DLState) (a : α)
  | exited (code : Nat) (st : DLState)
  | raised (e : PyExc) (st : DLState)
  deriving DecidableEq, Repr

/-- Method `get_api_token` (lines 80-92): unconditionally contacts the login endpoint —
there is no cached-token check in this method.  On success it stores and returns the
token; an `HTTPError` (any non-2xx login response) triggers `sys.exit(1)`; a transport
error is uncaught. -/
def get_api_token (env : Env) (st : DLState) : Step String :=
  match env.loginResp with
  | .ok _ tok =>
      .ok { st with token := some tok, loginContacts := st.loginContacts + 1 } tok
  | .httpError _ _ _ =>
      .exited 1 { st with loginContacts := st.loginContacts + 1 }
  | .transportError m =>
      .raised (.urlError m) { st with loginContacts := st.loginContacts + 1 }

/-- Method `__create_request` (lines 144-156): acquires a token via `get_api_token` only
when `__api_token` is `None`, then builds the request with the Basic-auth header. -/
def create_request (env : Env) (st : DLState) (url : String) : Step Request :=
  match st.token with
  | some tok => .ok st ⟨url, some tok⟩
  | none =>
      match get_api_token env st with
      | .ok st1 tok => .ok st1 ⟨url, some tok⟩
      | .exited c st1 => .exited c st1
      | .raised ex st1 => .raised ex st1

/-- Output filename policy (lines 120-123): `<outdir><name>__<barcode>.fna` when the
append flag is set, `<outdir><name>.fna` otherwise (`__outdir` already ends in the path
separator, line 55). -/
def out_filename (outdir : String) (append_barcode : Bool) (name barcode : String) :
    String :=
  if append_barcode then outdir ++ name ++ "__" ++ barcode ++ ".fna"
  else outdir ++ name ++ ".fna"

/-- One iteration of the fetch loop in `download_assemblies` (lines 109-131): resolve the
barcode via the search URL, take the first assembly's `download_fasta_link`, download it.
Both `try` blocks catch only `urllib.error.HTTPError`: a transport error in either phase,
or an empty `Assemblies` list, raises out of the loop.  The progress write and
`time.sleep` (lines 132-135) do not affect the modelled state. -/
def process_entry (env : Env) (db outdir : String) (append_barcode : Bool)
    (e : Entry) (st : DLState) : Step Unit :=
  match create_request env st (search_url db e.barcode) with
  | .exited c st1 => .exited c st1
  | .raised ex st1 => .raised ex st1
  | .ok st1 req =>
    let stA : DLState := { st1 with requests := st1.requests ++ [req] }
    match env.resolveResp (search_url db e.barcode) with
    | .transportError m => .raised (.urlError m) stA
    | .httpError _ msg body =>
        .ok { stA with barcode_error_log := stA.barcode_error_log ++
          [[e.name, e.barcode, "Query address: " ++ search_url db e.barcode,
            "Reason: " ++ body ++ ", " ++ msg]] } ()
    | .ok _ links =>
      match links with
      | [] => .raised .indexError stA
      | fasta_url :: _ =>
        match create_request env stA fasta_url with
        | .exited c st2 => .exited c st2
        | .raised ex st2 => .raised ex st2
        | .ok st2 req2 =>
          let stB : DLState := { st2 with requests := st2.requests ++ [req2] }
          match env.downloadResp fasta_url with
          | .transportError m => .raised (.urlError m) stB
          | .httpError _ msg body =>
              .ok { stB with fasta_error_log := stB.fasta_error_log ++
                [[e.name, e.barcode, fasta_url,
                  "Failed download as " ++ body ++ ", " ++ msg]] } ()
          | .ok code bytes =>
            if code = 200 then
              .ok { stB with files := stB.files ++
                [(out_filename outdir append_barcode e.name e.barcode, bytes)] } ()
            else
              .ok { stB with fasta_error_log := stB.fasta_error_log ++
                [[e.name, e.barcode, fasta_url, toString code,
                  "Failed download with an invalid server response."]] } ()

/-- The fetch loop of `download_assemblies` (line 108): entries in registry order. -/
def download_loop (env : Env) (db outdir : String) (append_barcode : Bool) :
    List Entry → DLState → Step Unit
  | [], st => .ok st ()
  | e :: rest, st =>
    match process_entry env db outdir append_barcode e st with
    | .ok st1 _ => download_loop env db outdir append_barcode rest st1
    | .exited c st1 => .exited c st1
    | .raised ex st1 => .raised ex st1

/-- Method `__write_error_messages` (lines 159-165): one record per line, tab-delimited,
written (mode "w", file always created) to `<outdir><base_name><timestamp>.log`.
Returns the (filename, content) pair of the file it creates. -/
def write_error_messages (outdir : String) (error_messages : List (List String))
    (base_name timestamp : String) : String × String :=
  (outdir ++ base_name ++ timestamp ++ ".log",
   String.join (error_messages.map (fun line => String.intercalate "\t" line ++ "\n")))

/-- Method `download_assemblies` (lines 105-141): runs the fetch loop, then writes the
two error logs.  Faithful to the source: lines 138-139 pass `self.__barcode_error_log`
to BOTH calls of `__write_error_messages`, so both log files are rendered from the
barcode-error list and `__fasta_error_log` is never written.  On clean completion the
returned value lists the two log files created. -/
def download_assemblies (env : Env) (db outdir : String) (append_barcode : Bool)
    (timestamp : String) (entries : List Entry) (st : DLState) :
    Step (List (String × String)) :=
  match download_loop env db outdir append_barcode entries st with
  | .ok st1 _ =>
      .ok st1
        [write_error_messages outdir st1.barcode_error_log "barcode_errors" timestamp,
         write_error_messages outdir st1.barcode_error_log "fasta_errors" timestamp]
  | .exited c st1 => .exited c st1
  | .raised ex st1 => .raised ex st1

/-- Insertion into `self.__barcodes` (line 100) with Python-dict semantics: overwriting
an existing key keeps its position, a new key is appended at the end (insertion order is
what the fetch loop later iterates in). -/
def dict_insert : List (String × String) → String → String → List (String × String)
  | [], k, v => [(k, v)]
  | p :: rest, k, v =>
      if p.1 = k then (k, v) :: rest else p :: dict_insert rest k v

/-- Python `str.split("\t")`, written as structural recursion over the characters: cut
at every tab, keeping empty segments (`"".split("\t") == [""]`). -/
def split_tab_aux : List Char → List Char → List String
  | [], acc => [String.mk acc.reverse]
  | c :: cs, acc =>
      if c = '\t' then String.mk acc.reverse :: split_tab_aux cs []
      else split_tab_aux cs (c :: acc)

/-- Split a string on tab characters, Python-`split` style. -/
def split_tab (s : String) : List String := split_tab_aux s.data []

/-- Python `str.strip()`: drop leading and trailing whitespace. -/
def strip (s : String) : String :=
  String.mk (((s.data.dropWhile Char.isWhitespace).reverse.dropWhile
    Char.isWhitespace).reverse)

/-- One line of `import_barcodes` (line 99): `name, barcode = line.strip().split("\t")`.
A line that does not split into exactly two fields raises `ValueError` (tuple unpacking
of the wrong arity). -/
def parse_line (line : String) : Except PyExc (String × String) :=
  match split_tab (strip line) with
  | [name, barcode] => .ok (name, barcode)
  | _ => .error .valueError

/-- The line loop of `import_barcodes` (lines 98-100), with `d` the dictionary built so
far. -/
def import_lines : List String → List (String × String) →
    Except PyExc (List (String × String))
  | [], d => .ok d
  | line :: rest, d =>
    match parse_line line with
    | .error ex => .error ex
    | .ok (n, b) => import_lines rest (dict_insert d n b)

/-- Method `import_barcodes` (lines 95-102): builds `self.__barcodes` from the input
file's lines, starting from an empty dictionary. -/
def import_barcodes (lines : List String) : Except PyExc (List (String × String)) :=
  import_lines lines []

/-- Dictionary lookup on the ordered-pair model of `self.__barcodes`. -/
def lookup : List (String × String) → String → Option String
  | [], _ => none
  | p :: rest, k => if p.1 = k then some p.2 else lookup rest k

/-- The successfully parsed (name, barcode) pairs of the input lines, in file order. -/
def parsed_lines (lines : List String) : List (String × String) :=
  lines.filterMap (fun l => (parse_line l).toOption)

/-- The registry obtained by dict-inserting a list of parsed pairs in order. -/
def build_registry (pairs : List (String × String)) : List (String × String) :=
  pairs.foldl (fun d p => dict_insert d p.1 p.2) []

/-- Constructor validation in `__init__` (lines 41-52): an invalid database name prints
a message and calls `sys.exit(0)`; a missing input file likewise calls `sys.exit(0)`.
Returns the exit code taken, or `none` when construction succeeds.  No network call is
made here. -/
def init_downloader (db : String) (input_file_exists : Bool) : Option Nat :=
  if db ∈ valid_db then
    if input_file_exists then none else some 0
  else some 0

/-- Function `main` of downloadAssemblies.py (lines 46-65): construct the downloader,
call `get_api_token` once explicitly, import the barcodes, then download. -/
def main_run (env : Env) (db : String) (input_file_exists : Bool) (lines : List String)
    (outdir : String) (append_barcode : Bool) (timestamp : String) :
    Step (List (String × String)) :=
  match init_downloader db input_file_exists with
  | some c => .exited c st0
  | none =>
    match get_api_token env st0 with
    | .exited c st1 => .exited c st1
    | .raised ex st1 => .raised ex st1
    | .ok st1 _ =>
      match import_barcodes lines with
      | .error ex => .raised ex st1
      | .ok barcodes =>
          download_assemblies env db outdir append_barcode timestamp
            (barcodes.map (fun p => ⟨p.1, p.2⟩)) st1

/-- An entry is HTTP-failure-only under `env` when neither its resolve nor its download
response is a transport error and a successful resolve returns at least one assembly:
exactly the outcomes whose failures `except urllib.error.HTTPError` can catch. -/
def http_only (env : Env) (db : String) (e : Entry) : Bool :=
  match env.resolveResp (search_url db e.barcode) with
  | .transportError _ => false
  | .httpError _ _ _ => true
  | .ok _ [] => false
  | .ok _ (l :: _) =>
      match env.downloadResp l with
      | .transportError _ => false
      | _ => true

/-- The value attached to the last occurrence of key `k` in a list of pairs. -/
def last_value (pairs : List (String × String)) (k : String) : Option String :=
  (pairs.reverse.find? (fun p => p.1 == k)).map Prod.snd

/-- A downloader state holding a cached token, as left by a successful `get_api_token`. -/
def stTok : DLState := ⟨some "tok", 1, [], [], [], []⟩

/-- Sample registry entries. -/
def e1 : Entry := ⟨"strainA", "BC1"⟩

def e2 : Entry := ⟨"strainB", "BC2"⟩

/-- A service where login, resolve and download all succeed. -/
def envA : Env :=
  ⟨.ok 200 "tok", fun _ => .ok 200 ["https://e/f1.fasta"],
   fun _ => .ok 200 ">seq1\nACGT\n"⟩

/-- A service where every resolve request fails with HTTP 404. -/
def envB : Env :=
  ⟨.ok 200 "tok", fun _ => .httpError 404 "Not Found" "no match",
   fun _ => .ok 200 "x"⟩

/-- A service where every resolve request fails with a transport error (a `URLError`
that is not an `HTTPError`). -/
def envC : Env :=
  ⟨.ok 200 "tok", fun _ => .transportError "connection refused",
   fun _ => .ok 200 "x"⟩

/-- A service where resolve succeeds but every download fails with HTTP 404. -/
def envD : Env :=
  ⟨.ok 200 "tok", fun _ => .ok 200 ["https://e/f1.fasta"],
   fun _ => .httpError 404 "Not Found" "nf"⟩

/-- A service where resolve succeeds but every download fails with a transport error. -/
def envE : Env :=
  ⟨.ok 200 "tok", fun _ => .ok 200 ["https://e/f1.fasta"],
   fun _ => .transportError "connection reset"⟩

/-- A service where resolve succeeds but the download response carries status 304. -/
def envF : Env :=
  ⟨.ok 200 "tok", fun _ => .ok 200 ["https://e/f1.fasta"], fun _ => .ok 304 "moved"⟩

/-- A service whose login endpoint answers HTTP 401. -/
def envG : Env :=
  ⟨.httpError 401 "Unauthorized" "bad credentials", fun _ => .ok 200 ["u"],
   fun _ => .ok 200 "x"⟩

/-- A sample well-formed input file: three lines, with a duplicate name whose last
occurrence carries barcode BC9. -/
def wlines : List String := ["strainA\tBC1", "strainB\tBC2", "strainA\tBC9"]

/-! Helper lemmas: exact evaluation of `process_entry` in each branch of the per-entry
state machine, for a state whose token is already cached. -/

/-- With a cached token, a resolve-phase `HTTPError` appends exactly one record to the
barcode error log; the only request issued is the authenticated search request. -/
theorem pe_resolve_httpError (env : Env) (db outdir : String) (ab : Bool) (e : Entry)
    (st : DLState) (tok : String) (c : Nat) (m b : String)
    (htok : st.token = some tok)
    (hr : env.resolveResp (search_url db e.barcode) = .httpError c m b) :
    process_entry env db outdir ab e st = .ok
      { st with requests := st.requests ++ [⟨search_url db e.barcode, some tok⟩],
                barcode_error_log := st.barcode_error_log ++
                  [[e.name, e.barcode, "Query address: " ++ search_url db e.barcode,
                    "Reason: " ++ b ++ ", " ++ m]] } () := by
  simp only [process_entry, create_request, htok, hr]

/-- With a cached token, a resolve-phase transport error escapes as an uncaught
`URLError`, leaving both error logs untouched. -/
theorem pe_resolve_transport (env : Env) (db outdir : String) (ab : Bool) (e : Entry)
    (st : DLState) (tok m : String)
    (htok : st.token = some tok)
    (hr : env.resolveResp (search_url db e.barcode) = .transportError m) :
    process_entry env db outdir ab e st = .raised (.urlError m)
      { st with requests := st.requests ++ [⟨search_url db e.barcode, some tok⟩] } := by
  simp only [process_entry, create_request, htok, hr]

/-- With a cached token, a resolve response whose `Assemblies` list is empty escapes as
an uncaught IndexError (`data["Assemblies"][0]`). -/
theorem pe_resolve_empty (env : Env) (db outdir : String) (ab : Bool) (e : Entry)
    (st : DLState) (tok : String) (rc : Nat)
    (htok : st.token = some tok)
    (hr : env.resolveResp (search_url db e.barcode) = .ok rc []) :
    process_entry env db outdir ab e st = .raised .indexError
      { st with requests := st.requests ++ [⟨search_url db e.barcode, some tok⟩] } := by
  simp only [process_entry, create_request, htok, hr]

/-- With a cached token, a download-phase `HTTPError` appends exactly one record to the
fasta error log and writes no file. -/
theorem pe_download_httpError (env : Env) (db outdir : String) (ab : Bool) (e : Entry)
    (st : DLState) (tok : String) (rc : Nat) (l : String) (ls : List String)
    (c : Nat) (m b : String)
    (htok : st.token = some tok)
    (hr : env.resolveResp (search_url db e.barcode) = .ok rc (l :: ls))
    (hd : env.downloadResp l = .httpError c m b) :
    process_entry env db outdir ab e st = .ok
      { st with requests := st.requests ++
                  [⟨search_url db e.barcode, some tok⟩, ⟨l, some tok⟩],
                fasta_error_log := st.fasta_error_log ++
                  [[e.name, e.barcode, l, "Failed download as " ++ b ++ ", " ++ m]] }
      () := by
  simp only [process_entry, create_request, htok, hr, hd, List.append_assoc,
    List.singleton_append]

/-- With a cached token, a download-phase transport error escapes as an uncaught
`URLError`: no record is appended and no file is written. -/
theorem pe_download_transport (env : Env) (db outdir : String) (ab : Bool) (e : Entry)
    (st : DLState) (tok : String) (rc : Nat) (l : String) (ls : List String) (m : String)
    (htok : st.token = some tok)
    (hr : env.resolveResp (search_url db e.barcode) = .ok rc (l :: ls))
    (hd : env.downloadResp l = .transportError m) :
    process_entry env db outdir ab e st = .raised (.urlError m)
      { st with requests := st.requests ++
                  [⟨search_url db e.barcode, some tok⟩, ⟨l, some tok⟩] } := by
  simp only [process_entry, create_request, htok, hr, hd, List.append_assoc,
    List.singleton_append]

/-- With a cached token, a download response with status 200 writes exactly one file,
named by `out_filename` and containing the response body. -/
theorem pe_download_ok200 (env : Env) (db outdir : String) (ab : Bool) (e : Entry)
    (st : DLState) (tok : String) (rc : Nat) (l : String) (ls : List String)
    (bytes : String)
    (htok : st.token = some tok)
    (hr : env.resolveResp (search_url db e.barcode) = .ok rc (l :: ls))
    (hd : env.downloadResp l = .ok 200 bytes) :
    process_entry env db outdir ab e st = .ok
      { st with requests := st.requests ++
                  [⟨search_url db e.barcode, some tok⟩, ⟨l, some tok⟩],
                files := st.files ++
                  [(out_filename outdir ab e.name e.barcode, bytes)] } () := by
  simp only [process_entry, create_request, htok, hr, hd, List.append_assoc,
    List.singleton_append, if_true, eq_self_iff_true]

/-- With a cached token, a download response with a status other than 200 appends
exactly one record to the fasta error log and writes no file. -/
theorem pe_download_non200 (env : Env) (db outdir : String) (ab : Bool) (e : Entry)
    (st : DLState) (tok : String) (rc : Nat) (l : String) (ls : List String)
    (code : Nat) (bytes : String)
    (htok : st.token = some tok)
    (hr : env.resolveResp (search_url db e.barcode) = .ok rc (l :: ls))
    (hd : env.downloadResp l = .ok code bytes)
    (hc : code ≠ 200) :
    process_entry env db outdir ab e st = .ok
      { st with requests := st.requests ++
                  [⟨search_url db e.barcode, some tok⟩, ⟨l, some tok⟩],
                fasta_error_log := st.fasta_error_log ++
                  [[e.name, e.barcode, l, toString code,
                    "Failed download with an invalid server response."]] } () := by
  simp only [process_entry, create_request, htok, hr, hd, List.append_assoc,
    List.singleton_append, if_neg hc]

/-! Helper lemmas for the barcode registry (`import_barcodes`). -/

/-- Evaluation of `List.find?` over an append. -/
theorem find_append_eq {α : Type} (l₁ l₂ : List α) (p : α → Bool) :
    (l₁ ++ l₂).find? p =
      match l₁.find? p with
      | some x => some x
      | none => l₂.find? p := by
  induction l₁ with
  | nil => simp
  | cons a l ih =>
      by_cases h : p a = true
      · simp [List.find?_cons_of_pos, h]
      · simp only [List.cons_append, List.find?_cons_of_neg _ h, ih]

/-- Lookup after a dict insertion: the inserted key now maps to the new value, every
other key is unaffected. -/
theorem lookup_dict_insert (d : List (String × String)) (k v k' : String) :
    lookup (dict_insert d k v) k' = if k' = k then some v else lookup d k' := by
  induction d with
  | nil =>
      by_cases h : k' = k
      · subst h; simp [dict_insert, lookup]
      · simp only [dict_insert, lookup]
        rw [if_neg h, if_neg (fun hh => h hh.symm)]
  | cons p rest ih =>
      by_cases hp : p.1 = k
      · simp only [dict_insert, if_pos hp, lookup]
        by_cases h : k' = k
        · rw [if_pos h, if_pos h.symm]
        · rw [if_neg (fun hh => h hh.symm), if_neg h,
            if_neg (fun hh => h (hp.symm.trans hh).symm)]
      · simp only [dict_insert, if_neg hp, lookup, ih]
        by_cases h : p.1 = k'
        · rw [if_pos h, if_neg (fun hh => hp (h.trans hh)), if_pos h]
        · rw [if_neg h]
          by_cases hk : k' = k
          · rw [if_pos hk, if_pos hk]
          · rw [if_neg hk, if_neg hk, if_neg h]

/-- Evaluation of `last_value` on a cons cell: the head only matters when the key never
occurs later in the list. -/
theorem last_value_cons (p : String × String) (rest : List (String × String))
    (k : String) :
    last_value (p :: rest) k =
      match last_value rest k with
      | some v => some v
      | none => if p.1 = k then some p.2 else none := by
  unfold last_value
  rw [List.reverse_cons, find_append_eq]
  cases hf : rest.reverse.find? (fun q => q.1 == k) with
  | some q => simp
  | none =>
      by_cases hk : p.1 = k
      · simp [List.find?, hk]
      · have hb : (p.1 == k) = false := by simp [hk]
        simp [List.find?, hb, hk]

/-- Lookup in the fold of dict insertions: the last insertion of a key wins; keys never
inserted fall through to the accumulator. -/
theorem lookup_foldl_insert (pairs : List (String × String))
    (d : List (String × String)) (k : String) :
    lookup (pairs.foldl (fun d p => dict_insert d p.1 p.2) d) k =
      match last_value pairs k with
      | some v => some v
      | none => lookup d k := by
  induction pairs generalizing d with
  | nil => simp [last_value]
  | cons p rest ih =>
      rw [List.foldl_cons, ih (dict_insert d p.1 p.2), last_value_cons]
      cases hlv : last_value rest k with
      | some v => simp
      | none =>
          simp only []
          by_cases hk : p.1 = k
          · rw [lookup_dict_insert, if_pos hk.symm, if_pos hk]
          · rw [lookup_dict_insert, if_neg (fun hh => hk hh.symm), if_neg hk]

/-- Inserting a key not present in the dictionary appends it at the end. -/
theorem dict_insert_of_not_mem (d : List (String × String)) (k v : String)
    (h : ∀ q ∈ d, q.1 ≠ k) :
    dict_insert d k v = d ++ [(k, v)] := by
  induction d with
  | nil => simp [dict_insert]
  | cons p rest ih =>
      have hp : p.1 ≠ k := h p (List.mem_cons_self p rest)
      simp only [dict_insert, if_neg hp, List.cons_append, List.cons.injEq, true_and]
      exact ih (fun q hq => h q (List.mem_cons_of_mem p hq))

/-- When the inserted pairs have pairwise-distinct keys, all distinct from the keys of
the accumulator, folding dict insertions is plain concatenation (file order). -/
theorem foldl_insert_of_nodup (pairs : List (String × String)) :
    ∀ d : List (String × String),
      (∀ p ∈ pairs, ∀ q ∈ d, q.1 ≠ p.1) →
      (pairs.map Prod.fst).Nodup →
      pairs.foldl (fun d p => dict_insert d p.1 p.2) d = d ++ pairs := by
  induction pairs with
  | nil => intro d _ _; simp
  | cons p rest ih =>
      intro d hdisj hnd
      have hins : dict_insert d p.1 p.2 = d ++ [p] := by
        have := dict_insert_of_not_mem d p.1 p.2
          (fun q hq => hdisj p (List.mem_cons_self p rest) q hq)
        simpa using this
      rw [List.map_cons, List.nodup_cons] at hnd
      obtain ⟨hhead, hnd'⟩ := hnd
      have hdisj' : ∀ r ∈ rest, ∀ q ∈ d ++ [p], q.1 ≠ r.1 := by
        intro r hr q hq
        rcases List.mem_append.mp hq with hq | hq
        · exact hdisj r (List.mem_cons_of_mem p hr) q hq
        · rcases List.mem_singleton.mp hq with rfl
          intro hcontra
          exact hhead (hcontra ▸ List.mem_map_of_mem Prod.fst hr)
      calc (p :: rest).foldl (fun d p => dict_insert d p.1 p.2) d
          = rest.foldl (fun d p => dict_insert d p.1 p.2) (d ++ [p]) := by
            simp [List.foldl_cons, hins]
        _ = (d ++ [p]) ++ rest := ih (d ++ [p]) hdisj' hnd'
        _ = d ++ p :: rest := by simp

/-- Under well-formed input, the line loop succeeds and equals the fold of dict
insertions over the parsed pairs. -/
theorem import_lines_eq (lines : List String) :
    ∀ d : List (String × String),
      (∀ l ∈ lines, (parse_line l).toOption.isSome = true) →
      import_lines lines d =
        .ok ((parsed_lines lines).foldl (fun d p => dict_insert d p.1 p.2) d) := by
  induction lines with
  | nil => intro d _; simp [import_lines, parsed_lines]
  | cons l rest ih =>
      intro d hwf
      have hl := hwf l (List.mem_cons_self l rest)
      cases hpl : parse_line l with
      | error ex => rw [hpl] at hl; simp [Except.toOption] at hl
      | ok p =>
          have : import_lines (l :: rest) d = import_lines rest (dict_insert d p.1 p.2) := by
            simp [import_lines, hpl]
          rw [this, ih (dict_insert d p.1 p.2)
            (fun x hx => hwf x (List.mem_cons_of_mem l hx))]
          simp [parsed_lines, hpl, Except.toOption]

/-- Under well-formed input every line parses, so the parsed list has one pair per
line. -/
theorem parsed_lines_length (lines : List String) :
    (∀ l ∈ lines, (parse_line l).toOption.isSome = true) →
    (parsed_lines lines).length = lines.length := by
  induction lines with
  | nil => intro _; simp [parsed_lines]
  | cons l rest ih =>
      intro hwf
      have hl := hwf l (List.mem_cons_self l rest)
      cases hpl : parse_line l with
      | error ex => rw [hpl] at hl; simp [Except.toOption] at hl
      | ok p =>
          have h2 := ih (fun x hx => hwf x (List.mem_cons_of_mem l hx))
          simp only [parsed_lines, List.filterMap_cons, hpl, Except.toOption,
            List.length_cons] at h2 ⊢
          omega

/-! Claim theorems. -/

/-- C1: the code violates the claim.  In a completed run with one download failure and no
lookup failure, `__fasta_error_log` holds exactly one record, yet both log files are
written from `__barcode_error_log` (lines 138-139): the fasta_errors log comes out empty,
its own sequence silently dropped, and both files are sourced from the same sequence. -/
theorem C1_log_sources :
    download_assemblies envD "ecoli" "out/" false "TS" [e1] stTok =
      .ok ⟨some "tok", 1,
           [⟨search_url "ecoli" "BC1", some "tok"⟩, ⟨"https://e/f1.fasta", some "tok"⟩],
           [], [],
           [["strainA", "BC1", "https://e/f1.fasta",
             "Failed download as nf, Not Found"]]⟩
        [("out/barcode_errorsTS.log", ""), ("out/fasta_errorsTS.log", "")] ∧
    String.join ([["strainA", "BC1", "https://e/f1.fasta",
        "Failed download as nf, Not Found"]].map
      (fun line => String.intercalate "\t" line ++ "\n")) ≠ "" := by
  constructor
  · rfl
  · decide

/-- C2: for every entry whose download phase returns HTTP status 200, exactly one output
file is created, named `<name>.fna` when the append flag is off and
`<name>__<identifier>.fna` when it is on, under the output directory, containing exactly
the response bytes. -/
theorem C2_success_file (env : Env) (db outdir : String) (ab : Bool) (e : Entry)
    (st : DLState) (tok : String) (rc : Nat) (l : String) (ls : List String)
    (bytes : String)
    (htok : st.token = some tok)
    (hr : env.resolveResp (search_url db e.barcode) = .ok rc (l :: ls))
    (hd : env.downloadResp l = .ok 200 bytes) :
    process_entry env db outdir ab e st = .ok
      { st with requests := st.requests ++
                  [⟨search_url db e.barcode, some tok⟩, ⟨l, some tok⟩],
                files := st.files ++
                  [(out_filename outdir ab e.name e.barcode, bytes)] } () ∧
    out_filename outdir false e.name e.barcode = outdir ++ e.name ++ ".fna" ∧
    out_filename outdir true e.name e.barcode =
      outdir ++ e.name ++ "__" ++ e.barcode ++ ".fna" := by
  refine ⟨pe_download_ok200 env db outdir ab e st tok rc l ls bytes htok hr hd, ?_, ?_⟩
  · simp [out_filename, String.append_assoc]
  · simp [out_filename, String.append_assoc]

/-- C2 witness: a concrete successful run writes exactly the file `out/strainA.fna` with
the response body. -/
theorem C2_success_file_witness :
    process_entry envA "ecoli" "out/" false e1 stTok = .ok
      ⟨some "tok", 1,
       [⟨search_url "ecoli" "BC1", some "tok"⟩, ⟨"https://e/f1.fasta", some "tok"⟩],
       [("out/strainA.fna", ">seq1\nACGT\n")], [], []⟩ () :=
  (C2_success_file envA "ecoli" "out/" false e1 stTok "tok" 200 "https://e/f1.fasta" []
    ">seq1\nACGT\n" rfl rfl rfl).1

/-- C3 counterexample: a per-item failure that is not an `HTTPError` escapes the fetch
loop.  With a transport error on the first entry's resolve request, the whole run raises
an uncaught `URLError`: no error record is produced, the second entry is never processed
(only one request was issued), and no log file is written. -/
theorem C3_counterexample :
    download_assemblies envC "ecoli" "out/" false "TS" [e1, e2] stTok =
      .raised (.urlError "connection refused")
        ⟨some "tok", 1, [⟨search_url "ecoli" "BC1", some "tok"⟩], [], [], []⟩ := by
  rfl

/-- C3 amended: per-item failures surfacing as `urllib.error.HTTPError` (including every
non-200 download status) never escape the fetch loop — when every entry's responses are
transport-error-free and resolve bodies are nonempty, the loop completes normally over
all entries.  Transport failures and empty assembly lists, by contrast, do escape (see
the counterexample). -/
theorem C3_http_failures_contained (env : Env) (db outdir : String) (ab : Bool)
    (entries : List Entry) (st : DLState) (tok : String)
    (htok : st.token = some tok)
    (hh : ∀ e ∈ entries, http_only env db e = true) :
    ∃ st1, download_loop env db outdir ab entries st = .ok st1 () := by
  induction entries generalizing st with
  | nil => exact ⟨st, rfl⟩
  | cons e rest ih =>
      have he := hh e (List.mem_cons_self e rest)
      have hstep : ∀ st' : DLState, process_entry env db outdir ab e st = .ok st' () →
          download_loop env db outdir ab (e :: rest) st =
            download_loop env db outdir ab rest st' := by
        intro st' hpe
        rw [download_loop, hpe]
      have hrest : ∀ x ∈ rest, http_only env db x = true :=
        fun x hx => hh x (List.mem_cons_of_mem e hx)
      cases hr : env.resolveResp (search_url db e.barcode) with
      | transportError m =>
          simp only [http_only, hr] at he
          exact Bool.noConfusion he
      | httpError c m b =>
          rw [hstep _ (pe_resolve_httpError env db outdir ab e st tok c m b htok hr)]
          exact ih _ htok hrest
      | ok rc links =>
          cases links with
          | nil =>
              simp only [http_only, hr] at he
              exact Bool.noConfusion he
          | cons l ls =>
              cases hd : env.downloadResp l with
              | transportError m =>
                  simp only [http_only, hr, hd] at he
                  exact Bool.noConfusion he
              | httpError c m b =>
                  rw [hstep _ (pe_download_httpError env db outdir ab e st tok rc l ls
                    c m b htok hr hd)]
                  exact ih _ htok hrest
              | ok code bytes =>
                  by_cases hc : code = 200
                  · subst hc
                    rw [hstep _ (pe_download_ok200 env db outdir ab e st tok rc l ls
                      bytes htok hr hd)]
                    exact ih _ htok hrest
                  · rw [hstep _ (pe_download_non200 env db outdir ab e st tok rc l ls
                      code bytes htok hr hd hc)]
                    exact ih _ htok hrest

/-- C3 witness: with HTTP-only failures (here a 404 on every resolve) a two-entry run
completes. -/
theorem C3_http_failures_contained_witness :
    stTok.token = some "tok" ∧ (∀ e ∈ [e1, e2], http_only envB "ecoli" e = true) ∧
    ∃ st1, download_loop envB "ecoli" "out/" false [e1, e2] stTok = .ok st1 () :=
  ⟨rfl, by decide,
   C3_http_failures_contained envB "ecoli" "out/" false [e1, e2] stTok "tok" rfl
     (by decide)⟩

/-- C4 counterexample: a resolve-phase failure that is a transport error (not an
`HTTPError`) yields no lookup-error record and the run does not continue: the per-entry
step raises, with `__barcode_error_log` still empty. -/
theorem C4_counterexample :
    process_entry envC "ecoli" "out/" false e1 stTok =
      .raised (.urlError "connection refused")
        ⟨some "tok", 1, [⟨search_url "ecoli" "BC1", some "tok"⟩], [], [], []⟩ := by
  rfl

/-- C4 amended: for every entry whose resolve phase fails with an `HTTPError`, no
download request is issued (the only request added is the search request), exactly one
lookup-error record is appended, no output file is created, and the loop continues with
the next entry.  A resolve transport failure instead escapes with no record. -/
theorem C4_lookup_error (env : Env) (db outdir : String) (ab : Bool) (e : Entry)
    (st : DLState) (tok : String) (c : Nat) (m b : String)
    (htok : st.token = some tok)
    (hr : env.resolveResp (search_url db e.barcode) = .httpError c m b) :
    process_entry env db outdir ab e st = .ok
      { st with requests := st.requests ++ [⟨search_url db e.barcode, some tok⟩],
                barcode_error_log := st.barcode_error_log ++
                  [[e.name, e.barcode, "Query address: " ++ search_url db e.barcode,
                    "Reason: " ++ b ++ ", " ++ m]] } () ∧
    ∀ rest : List Entry,
      download_loop env db outdir ab (e :: rest) st =
        download_loop env db outdir ab rest
          { st with requests := st.requests ++ [⟨search_url db e.barcode, some tok⟩],
                    barcode_error_log := st.barcode_error_log ++
                      [[e.name, e.barcode,
                        "Query address: " ++ search_url db e.barcode,
                        "Reason: " ++ b ++ ", " ++ m]] } := by
  have hpe := pe_resolve_httpError env db outdir ab e st tok c m b htok hr
  refine ⟨hpe, fun rest => ?_⟩
  rw [download_loop, hpe]

/-- C4 witness: a concrete 404 on resolve appends one lookup-error record and nothing
else. -/
theorem C4_lookup_error_witness :
    process_entry envB "ecoli" "out/" false e1 stTok = .ok
      ⟨some "tok", 1, [⟨search_url "ecoli" "BC1", some "tok"⟩], [],
       [["strainA", "BC1", "Query address: " ++ search_url "ecoli" "BC1",
         "Reason: no match, Not Found"]], []⟩ () :=
  (C4_lookup_error envB "ecoli" "out/" false e1 stTok "tok" 404 "Not Found" "no match"
    rfl rfl).1

/-- C5 counterexample: a download-phase transport failure does not produce a
download-error record — it escapes the loop as an uncaught `URLError`, with
`__fasta_error_log` still empty. -/
theorem C5_counterexample :
    process_entry envE "ecoli" "out/" false e1 stTok =
      .raised (.urlError "connection reset")
        ⟨some "tok", 1,
         [⟨search_url "ecoli" "BC1", some "tok"⟩, ⟨"https://e/f1.fasta", some "tok"⟩],
         [], [], []⟩ := by
  rfl

/-- C5 amended: for every entry whose resolve phase succeeds but whose download phase
returns an `HTTPError` or a non-200 status, no output file is created and exactly one
download-error record is appended.  A download transport failure instead escapes with no
record. -/
theorem C5_download_error (env : Env) (db outdir : String) (ab : Bool) (e : Entry)
    (st : DLState) (tok : String) (rc : Nat) (l : String) (ls : List String)
    (htok : st.token = some tok)
    (hr : env.resolveResp (search_url db e.barcode) = .ok rc (l :: ls)) :
    (∀ c m b, env.downloadResp l = .httpError c m b →
      process_entry env db outdir ab e st = .ok
        { st with requests := st.requests ++
                    [⟨search_url db e.barcode, some tok⟩, ⟨l, some tok⟩],
                  fasta_error_log := st.fasta_error_log ++
                    [[e.name, e.barcode, l,
                      "Failed download as " ++ b ++ ", " ++ m]] } ()) ∧
    (∀ code bytes, env.downloadResp l = .ok code bytes → code ≠ 200 →
      process_entry env db outdir ab e st = .ok
        { st with requests := st.requests ++
                    [⟨search_url db e.barcode, some tok⟩, ⟨l, some tok⟩],
                  fasta_error_log := st.fasta_error_log ++
                    [[e.name, e.barcode, l, toString code,
                      "Failed download with an invalid server response."]] } ()) :=
  ⟨fun c m b hd => pe_download_httpError env db outdir ab e st tok rc l ls c m b
      htok hr hd,
   fun code bytes hd hc => pe_download_non200 env db outdir ab e st tok rc l ls
      code bytes htok hr hd hc⟩

/-- C5 witness: a concrete 404 on download appends one download-error record, and a
concrete 304 likewise; no file is written in either case. -/
theorem C5_download_error_witness :
    process_entry envD "ecoli" "out/" false e1 stTok = .ok
      ⟨some "tok", 1,
       [⟨search_url "ecoli" "BC1", some "tok"⟩, ⟨"https://e/f1.fasta", some "tok"⟩],
       [], [],
       [["strainA", "BC1", "https://e/f1.fasta",
         "Failed download as nf, Not Found"]]⟩ () ∧
    process_entry envF "ecoli" "out/" false e1 stTok = .ok
      ⟨some "tok", 1,
       [⟨search_url "ecoli" "BC1", some "tok"⟩, ⟨"https://e/f1.fasta", some "tok"⟩],
       [], [],
       [["strainA", "BC1", "https://e/f1.fasta", toString 304,
         "Failed download with an invalid server response."]]⟩ () :=
  ⟨(C5_download_error envD "ecoli" "out/" false e1 stTok "tok" 200 "https://e/f1.fasta"
      [] rfl rfl).1 404 "Not Found" "nf" rfl,
   (C5_download_error envF "ecoli" "out/" false e1 stTok "tok" 200 "https://e/f1.fasta"
      [] rfl rfl).2 304 "moved" rfl (by decide)⟩

/-- C6: for every well-formed two-column tab-delimited input, `import_barcodes` builds
the registry by last-wins dict insertion in file order: it succeeds and equals the fold
of insertions over the parsed pairs; there is one parsed pair per line; every name maps
to the identifier of its last occurrence; and with no duplicate names the registry is
exactly the parsed pairs in file order (hence N entries for N lines). -/
theorem C6_registry (lines : List String)
    (hwf : ∀ l ∈ lines, (parse_line l).toOption.isSome = true) :
    import_barcodes lines = .ok (build_registry (parsed_lines lines)) ∧
    (parsed_lines lines).length = lines.length ∧
    (∀ k, lookup (build_registry (parsed_lines lines)) k =
      last_value (parsed_lines lines) k) ∧
    (((parsed_lines lines).map Prod.fst).Nodup →
      build_registry (parsed_lines lines) = parsed_lines lines) := by
  refine ⟨import_lines_eq lines [] hwf, parsed_lines_length lines hwf, ?_, ?_⟩
  · intro k
    have h := lookup_foldl_insert (parsed_lines lines) [] k
    rw [build_registry]
    cases hlv : last_value (parsed_lines lines) k with
    | some v => rw [h, hlv]
    | none => rw [h, hlv]; rfl
  · intro hnd
    rw [build_registry]
    have h := foldl_insert_of_nodup (parsed_lines lines) []
      (fun p _ q hq => absurd hq (List.not_mem_nil q)) hnd
    simpa using h

/-- C6 witness: on a three-line file with a duplicated name, the registry keeps the
duplicate's last barcode, in insertion order. -/
theorem C6_registry_witness :
    (∀ l ∈ wlines, (parse_line l).toOption.isSome = true) ∧
    import_barcodes wlines = .ok (build_registry (parsed_lines wlines)) ∧
    (∀ k, lookup (build_registry (parsed_lines wlines)) k =
      last_value (parsed_lines wlines) k) :=
  ⟨by decide, (C6_registry wlines (by decide)).1, (C6_registry wlines (by decide)).2.2.1⟩

/-- C7 counterexample: a subsequent call to the token-acquisition operation
`get_api_token` does not return the cached token silently — it contacts the login
service again (the contact counter rises from 1 to 2 even though a token is cached). -/
theorem C7_counterexample :
    get_api_token envA st0 = .ok stTok "tok" ∧
    get_api_token envA stTok = .ok ⟨some "tok", 2, [], [], [], []⟩ "tok" :=
  ⟨rfl, rfl⟩

/-- C7 amended: the lazy guard lives in `__create_request`, not in `get_api_token`: any
request built while a token is cached reuses it without contacting the service (the
state, including the login-contact counter, is unchanged), whereas `get_api_token`
itself never returns with the state unchanged — every call contacts the service.  Driven
by `main`, which calls `get_api_token` exactly once, the token is therefore acquired at
most once per run. -/
theorem C7_cached_token (env : Env) (st : DLState) (url tok : String)
    (htok : st.token = some tok) :
    create_request env st url = .ok st ⟨url, some tok⟩ ∧
    ∀ (st2 : DLState) (tok2 : String), get_api_token env st2 ≠ .ok st2 tok2 := by
  constructor
  · simp only [create_request, htok]
  · intro st2 tok2 hcontra
    cases henv : env.loginResp with
    | ok c t =>
        rw [get_api_token, henv] at hcontra
        injection hcontra with h1 h2
        have h3 := congrArg DLState.loginContacts h1
        simp at h3
    | httpError c m b =>
        rw [get_api_token, henv] at hcontra
        exact Step.noConfusion hcontra
    | transportError m =>
        rw [get_api_token, henv] at hcontra
        exact Step.noConfusion hcontra

/-- C7 witness: with a cached token, building a request leaves the contact counter at 1;
and no call of `get_api_token` leaves the state unchanged. -/
theorem C7_cached_token_witness :
    create_request envA stTok "https://e/f1.fasta" =
      .ok stTok ⟨"https://e/f1.fasta", some "tok"⟩ ∧
    ∀ (st2 : DLState) (tok2 : String), get_api_token envA st2 ≠ .ok st2 tok2 :=
  C7_cached_token envA stTok "https://e/f1.fasta" "tok" rfl

/-- C8: an invalid database name or an unreadable input file makes the run exit with
status 0 before any network activity (no login contact, no request, no file, no log);
a non-2xx login response makes it exit with status 1 after the single login contact,
with no per-item request issued, zero output files and zero log files (the logs are only
written on normal completion of `download_assemblies`). -/
theorem C8_exit_behavior (env : Env) (db : String) (fe : Bool) (lines : List String)
    (outdir : String) (ab : Bool) (ts : String) :
    ((db ∉ valid_db ∨ fe = false) →
      main_run env db fe lines outdir ab ts = .exited 0 ⟨none, 0, [], [], [], []⟩) ∧
    (∀ c m b, db ∈ valid_db → fe = true →
      env.loginResp = .httpError c m b →
      main_run env db fe lines outdir ab ts = .exited 1 ⟨none, 1, [], [], [], []⟩) := by
  constructor
  · intro h
    rcases h with h | h
    · simp [main_run, init_downloader, h, st0]
    · by_cases hc : db ∈ valid_db <;>
        simp [main_run, init_downloader, h, hc, st0]
  · intro c m b hdb hfe hlogin
    simp [main_run, init_downloader, hdb, hfe, get_api_token, hlogin, st0]

/-- C8 witness: a bad database name exits 0 with an untouched state; an HTTP 401 login
exits 1 after exactly one login contact, with no files and no logs. -/
theorem C8_exit_behavior_witness :
    main_run envA "baddb" true wlines "out/" false "TS" =
      .exited 0 ⟨none, 0, [], [], [], []⟩ ∧
    main_run envG "ecoli" true wlines "out/" false "TS" =
      .exited 1 ⟨none, 1, [], [], [], []⟩ :=
  ⟨(C8_exit_behavior envA "baddb" true wlines "out/" false "TS").1
     (Or.inl (by decide)),
   (C8_exit_behavior envG "ecoli" true wlines "out/" false "TS").2 401 "Unauthorized"
     "bad credentials" (by decide) rfl rfl⟩

/-- C9 counterexample: the resolve URL is not built on the https server string used for
login — the code hardcodes a plain-http URL (line 110), so the claim's
`{server}/api/v2.0/...` form, with `{server}` the https login server, does not match. -/
theorem C9_counterexample :
    search_url "ecoli" "BC1" ≠
      server ++ "/api/v2.0/" ++ "ecoli" ++ "/assemblies?barcode=" ++ "BC1"
        ++ "&limit=50" := by
  decide

/-- C9 amended: the resolve request is an authenticated GET to
`http://enterobase.warwick.ac.uk/api/v2.0/{database}/assemblies?barcode=<id>&limit=50` —
same host as the login server but plain http, not the https server string — and the
download link taken is that of the first assembly record (first-match-wins): the two
requests issued for a successful entry are the search request and then a request for the
head of the assemblies list, both carrying the cached token. -/
theorem C9_resolve_request (env : Env) (db outdir : String) (ab : Bool) (e : Entry)
    (st : DLState) (tok : String) (rc : Nat) (l : String) (ls : List String)
    (htok : st.token = some tok)
    (hr : env.resolveResp (search_url db e.barcode) = .ok rc (l :: ls)) :
    search_url db e.barcode =
      "http://enterobase.warwick.ac.uk/api/v2.0/" ++ db ++ "/assemblies?barcode="
        ++ e.barcode ++ "&limit=50" ∧
    server = "https://enterobase.warwick.ac.uk" ∧
    (∀ bytes, env.downloadResp l = .ok 200 bytes →
      process_entry env db outdir ab e st = .ok
        { st with requests := st.requests ++
                    [⟨search_url db e.barcode, some tok⟩, ⟨l, some tok⟩],
                  files := st.files ++
                    [(out_filename outdir ab e.name e.barcode, bytes)] } ()) :=
  ⟨rfl, rfl,
   fun bytes hd => pe_download_ok200 env db outdir ab e st tok rc l ls bytes htok hr hd⟩

/-- C9 witness: for a concrete entry the two requests issued are the plain-http search
request and the first assembly link, both authenticated with the cached token. -/
theorem C9_resolve_request_witness :
    search_url "ecoli" "BC1" =
      "http://enterobase.warwick.ac.uk/api/v2.0/" ++ "ecoli" ++ "/assemblies?barcode="
        ++ "BC1" ++ "&limit=50" ∧
    process_entry envA "ecoli" "out/" false e1 stTok = .ok
      ⟨some "tok", 1,
       [⟨search_url "ecoli" "BC1", some "tok"⟩, ⟨"https://e/f1.fasta", some "tok"⟩],
       [("out/strainA.fna", ">seq1\nACGT\n")], [], []⟩ () :=
  ⟨(C9_resolve_request envA "ecoli" "out/" false e1 stTok "tok" 200 "https://e/f1.fasta"
      [] rfl rfl).1,
   (C9_resolve_request envA "ecoli" "out/" false e1 stTok "tok" 200 "https://e/f1.fasta"
      [] rfl rfl).2.2 ">seq1\nACGT\n" rfl⟩

/-- C10: on every clean completion of `download_assemblies` both log files — the
barcode_errors log and the fasta_errors log — are created in the output directory, even
when the corresponding error list is empty: an empty file is written, never no file. -/
theorem C10_logs_always_written (env : Env) (db outdir : String) (ab : Bool)
    (ts : String) (entries : List Entry) (st st1 : DLState)
    (h : download_loop env db outdir ab entries st = .ok st1 ()) :
    ∃ c1 c2,
      download_assemblies env db outdir ab ts entries st =
        .ok st1 [(outdir ++ "barcode_errors" ++ ts ++ ".log", c1),
                 (outdir ++ "fasta_errors" ++ ts ++ ".log", c2)] ∧
      (st1.barcode_error_log = [] → c1 = "" ∧ c2 = "") := by
  refine ⟨String.join (st1.barcode_error_log.map
      (fun line => String.intercalate "\t" line ++ "\n")),
    String.join (st1.barcode_error_log.map
      (fun line => String.intercalate "\t" line ++ "\n")), ?_, ?_⟩
  · rw [download_assemblies, h]
    rfl
  · intro hb
    rw [hb]
    exact ⟨rfl, rfl⟩

/-- C10 witness: an errorless empty run still creates both log files, both empty. -/
theorem C10_logs_always_written_witness :
    ∃ c1 c2,
      download_assemblies envA "ecoli" "out/" false "TS" [] stTok =
        .ok stTok [("out/" ++ "barcode_errors" ++ "TS" ++ ".log", c1),
                   ("out/" ++ "fasta_errors" ++ "TS" ++ ".log", c2)] ∧
      (stTok.barcode_error_log = [] → c1 = "" ∧ c2 = "") :=
  C10_logs_always_written envA "ecoli" "out/" false "TS" [] stTok stTok rfl

end Enterobase
